import Mathlib

/-!
Verification of the gensim scikit-learn TF-IDF wrapper
(src/gensim/sklearn_api/tfidf.py) against its natural-language
specification.

The wrapper itself (TfIdfTransformer with its fit and transform methods)
is translated directly from the Python source.  The wrapped
gensim.models.tfidfmodel.TfidfModel is an external collaborator whose code
is not part of this repository snapshot; its behaviour (SMART mnemonic
resolution, corpus statistics, per-document weighting) is modelled from the
specification, as marked on each such definition.

Numeric values are rationals.  The real-valued logarithm and square root
used by the idf and cosine formulas are not exactly representable on the
rationals, so they are passed in as abstract function parameters rlog and
rsqrt; every theorem below is independent of their values and quantifies
over them.
-/

namespace Gensim

/-- Sparse bag-of-words document: ordered list of (term-id, value) pairs. -/
abbrev Doc := List (Nat × ℚ)

/-- Errors surfaced by the transformer; Python exceptions modelled as values.
notFitted is sklearn.exceptions.NotFittedError, invalidScheme is the error on a
bad SMART mnemonic, emptyCorpus the error for auto-pivot on an empty corpus,
indexError the Python IndexError from indexing an empty list, and typeError a
Python TypeError from iterating a value of the wrong dynamic shape. -/
inductive TfidfError
| notFitted
| invalidScheme
| emptyCorpus
| indexError
| typeError
deriving DecidableEq, Repr

/-- Modelled from the spec: SMART local (term-frequency) weighting selectors,
position 1 codes b, n/t, a, l, d, L. -/
inductive SmartLocal
| bin
| raw
| aug
| logTf
| dlog
| logAvg
deriving DecidableEq, Repr

/-- Modelled from the spec: SMART global (document-frequency) weighting
selectors, position 2 codes x/n, f, t, p. -/
inductive SmartGlobal
| non
| idf
| zcIdf
| probIdf
deriving DecidableEq, Repr

/-- Modelled from the spec: SMART normalization selectors, position 3 codes
x/n, c, u, b. -/
inductive SmartNorm
| non
| cosine
| pivotedUnique
| pivotedLength
deriving DecidableEq, Repr

/-- Modelled from the spec: a resolved Scheme is an immutable triple of
selectors plus the optional 4th-letter override used for length computation
during pivot fitting (defaults to the raw code n when absent). -/
structure Scheme where
  lo : SmartLocal
  gl : SmartGlobal
  nr : SmartNorm
  lenLo : SmartLocal
deriving DecidableEq, Repr

/-- Recognized codes for SMART position 1 (local weighting). -/
def localChars : List Char := ['b', 'n', 't', 'a', 'l', 'd', 'L']

/-- Recognized codes for SMART position 2 (global weighting). -/
def globalChars : List Char := ['x', 'n', 'f', 't', 'p']

/-- Recognized codes for SMART position 3 (normalization). -/
def normChars : List Char := ['x', 'n', 'c', 'u', 'b']

/-- Modelled from the spec: decode one local-weighting code character. -/
def localOf (c : Char) : Except TfidfError SmartLocal :=
  if c = 'b' then .ok .bin
  else if c = 'n' ∨ c = 't' then .ok .raw
  else if c = 'a' then .ok .aug
  else if c = 'l' then .ok .logTf
  else if c = 'd' then .ok .dlog
  else if c = 'L' then .ok .logAvg
  else .error .invalidScheme

/-- Modelled from the spec: decode one global-weighting code character. -/
def globalOf (c : Char) : Except TfidfError SmartGlobal :=
  if c = 'x' ∨ c = 'n' then .ok .non
  else if c = 'f' then .ok .idf
  else if c = 't' then .ok .zcIdf
  else if c = 'p' then .ok .probIdf
  else .error .invalidScheme

/-- Modelled from the spec: decode one normalization code character. -/
def normOf (c : Char) : Except TfidfError SmartNorm :=
  if c = 'x' ∨ c = 'n' then .ok .non
  else if c = 'c' then .ok .cosine
  else if c = 'u' then .ok .pivotedUnique
  else if c = 'b' then .ok .pivotedLength
  else .error .invalidScheme

/-- Modelled from the spec: SchemeResolver.resolve.  Parses a 3-character (or
4-character) mnemonic into a Scheme; fails with the invalid-scheme error if
the mnemonic is not 3 or 4 characters or any character is not a recognized
code for its position.  The 4th character, when present, has the same legal
set as position 1; when absent it defaults to the raw code n. -/
def resolve (s : List Char) : Except TfidfError Scheme :=
  match s with
  | [c1, c2, c3] =>
    match localOf c1, globalOf c2, normOf c3 with
    | .ok lo, .ok gl, .ok nr => .ok ⟨lo, gl, nr, .raw⟩
    | _, _, _ => .error .invalidScheme
  | [c1, c2, c3, c4] =>
    match localOf c1, globalOf c2, normOf c3, localOf c4 with
    | .ok lo, .ok gl, .ok nr, .ok lenLo => .ok ⟨lo, gl, nr, lenLo⟩
    | _, _, _, _ => .error .invalidScheme
  | _ => .error .invalidScheme

/-- The claim's reading of a well-formed mnemonic, stated from the spec's
words: 3 or 4 characters long, and every character is a recognized code for
its position (position 4's recognized set equals position 1's). -/
def validMnemonic (s : List Char) : Prop :=
  (s.length = 3 ∨ s.length = 4) ∧
    ∀ i : Fin s.length,
      s.get i ∈ (if i.val = 0 then localChars
        else if i.val = 1 then globalChars
        else if i.val = 2 then normChars
        else localChars)

instance (s : List Char) : Decidable (validMnemonic s) := by
  unfold validMnemonic
  infer_instance

/-- Modelled from the spec: the external vocabulary collaborator, consumed as
a read-only mapping from term-id to document frequency plus the corpus size,
used to directly construct the idf mapping when supplied. -/
structure Dictionary where
  num_docs : Nat
  dfs : List (Nat × Nat)
deriving DecidableEq, Repr

/-- Mapping from int id to word token (only carried through, never read by
the weighting engine). -/
abbrev Id2Word := List (Nat × String)

/-- Modelled from the spec: single pass over the corpus building the
document-frequency table, mapping each observed term-id to the count of
documents containing it at least once (document count, not occurrence
count). -/
def docFreqs (corpus : List Doc) : List (Nat × Nat) :=
  let terms := ((corpus.map (fun d => d.map Prod.fst)).flatten).dedup
  terms.map (fun t => (t, (corpus.filter (fun d => d.any (fun p => p.1 == t))).length))

/-- Modelled from the spec: local term-frequency weighting formulas.  maxtf
and avgtf are the document's own maximum and average term frequency.  rlog
stands for the real logarithm. -/
def localWt (rlog : ℚ → ℚ) (lo : SmartLocal) (tf maxtf avgtf : ℚ) : ℚ :=
  match lo with
  | .bin => if 0 < tf then 1 else 0
  | .raw => tf
  | .aug => 1/2 + 1/2 * tf / maxtf
  | .logTf => if 0 < tf then 1 + rlog tf else 0
  | .dlog => if 0 < tf then 1 + rlog (1 + rlog tf) else 0
  | .logAvg => if 0 < tf then (1 + rlog tf) / (1 + rlog avgtf) else 0

/-- Modelled from the spec: global (idf-like) weighting formulas over the
document frequency df and total document count N; a term with df = 0 (never
seen in the fit corpus) gets weight 0 rather than a division by zero, and
probabilistic idf is clipped at 0 minimum. -/
def globalWt (rlog : ℚ → ℚ) (gl : SmartGlobal) (df N : Nat) : ℚ :=
  match gl with
  | .non => 1
  | .idf => if df = 0 then 0 else rlog ((N : ℚ) / (df : ℚ))
  | .zcIdf => if df = 0 then 0 else rlog (((N : ℚ) + 1) / (df : ℚ))
  | .probIdf => if df = 0 then 0 else max 0 (rlog (((N : ℚ) - (df : ℚ)) / (df : ℚ)))

/-- Modelled from the spec: cosine normalization scales every entry by the
reciprocal square root of the sum of squares; an all-zero (in particular
empty) vector is left unchanged to avoid division by zero.  rsqrt stands for
the real square root. -/
def cnorm (rsqrt : ℚ → ℚ) (v : Doc) : Doc :=
  let ss := (v.map (fun p => p.2 * p.2)).sum
  if ss = 0 then v else v.map (fun p => (p.1, p.2 / rsqrt ss))

/-- Modelled from the spec: pivoted normalization rescales each weight by
1 / ((1 - slope) * pivot + slope * L) where L is the document's length
metric; when no pivot is available, no pivoted normalization is applied. -/
def pivotedScale (pivot : Option ℚ) (slope L : ℚ) (v : Doc) : Doc :=
  match pivot with
  | none => v
  | some p => v.map (fun q => (q.1, q.2 * (1 / ((1 - slope) * p + slope * L))))

/-- Modelled from the spec: the unnormalized weighting stage shared by
transform and auto-pivot fitting: apply the local formula to each
(term-id, tf) pair using the document's own statistics, multiply by the
global formula at the term's document frequency, and drop entries whose
final weight is exactly 0 (sparsity preserved). -/
def weightDoc (rlog : ℚ → ℚ) (sch : Scheme) (N : Nat) (dfs : List (Nat × Nat)) (doc : Doc) : Doc :=
  let maxtf := (doc.map Prod.snd).foldr max 0
  let avgtf := (doc.map Prod.snd).sum / (doc.length : ℚ)
  let weighted := doc.map
    (fun p => (p.1, localWt rlog sch.lo p.2 maxtf avgtf *
      globalWt rlog sch.gl ((dfs.lookup p.1).getD 0) N))
  weighted.filter (fun p => decide (p.2 ≠ 0))

/-- Modelled from the spec: automatic pivot fitting, the mean over all corpus
documents of the distinct-term count measured under the same unnormalized
local/global weighting the documents will later receive. -/
def autoPivot (rlog : ℚ → ℚ) (sch : Scheme) (N : Nat) (dfs : List (Nat × Nat))
    (corpus : List Doc) : ℚ :=
  ((corpus.map (fun d => ((weightDoc rlog sch N dfs d).length : ℚ))).sum) / (corpus.length : ℚ)

/-- Modelled from the spec: the state of the external TfidfModel after fit:
the resolved Scheme, the corpus statistics (total document count and
document-frequency table), and the pivot and slope for pivoted
normalization.  Immutable after construction. -/
structure TfidfModel where
  scheme : Scheme
  num_docs : Nat
  dfs : List (Nat × Nat)
  pivot : Option ℚ
  slope : ℚ

/-- Modelled from the spec: construction of the external TfidfModel (the
body of gensim.models.TfidfModel, invoked by fit).  Resolves the mnemonic
(failing on an invalid one), takes the corpus statistics from the dictionary
when one is supplied and otherwise from a scan of the corpus, and fixes the
pivot: an explicit pivot is used as-is; with no explicit pivot and the
pivoted-unique normalization scheme the pivot is determined automatically
(failing on an empty corpus, where the mean is undefined); otherwise no
pivot is set and no pivoted normalization will be applied.  The id2word
mapping and the wlocal/wglobal/normalize overrides the wrapper also passes
belong to out-of-scope collaborator configuration: in the specified engine
the smartirs mnemonic selects the weighting functions. -/
def TfidfModel.init (rlog : ℚ → ℚ) (corpus : List Doc) (dictionary : Option Dictionary)
    (smartirs : List Char) (pivot : Option ℚ) (slope : ℚ) : Except TfidfError TfidfModel :=
  match resolve smartirs with
  | .error e => .error e
  | .ok sch =>
    let N := match dictionary with
      | some dic => dic.num_docs
      | none => corpus.length
    let dfs := match dictionary with
      | some dic => dic.dfs
      | none => docFreqs corpus
    match pivot with
    | some p => .ok ⟨sch, N, dfs, some p, slope⟩
    | none =>
      if sch.nr = SmartNorm.pivotedUnique then
        if corpus.length = 0 then .error .emptyCorpus
        else .ok ⟨sch, N, dfs, some (autoPivot rlog sch N dfs corpus), slope⟩
      else .ok ⟨sch, N, dfs, none, slope⟩

/-- Modelled from the spec: applying a fitted TfidfModel to one document
(gensim's model[doc]): unnormalized local/global weighting with zero weights
dropped, then the normalization the scheme selects. -/
def TfidfModel.apply (rlog rsqrt : ℚ → ℚ) (m : TfidfModel) (doc : Doc) : Doc :=
  let w := weightDoc rlog m.scheme m.num_docs m.dfs doc
  match m.scheme.nr with
  | .non => w
  | .cosine => cnorm rsqrt w
  | .pivotedUnique => pivotedScale m.pivot m.slope ((w.length : ℚ)) w
  | .pivotedLength => pivotedScale m.pivot m.slope ((doc.map Prod.snd).sum) w

/-- The wrapper state, translated from TfIdfTransformer.__init__: the held
model (None until fit) and the configuration fields, in source order. -/
structure TfIdfTransformer where
  gensim_model : Option TfidfModel
  id2word : Option Id2Word
  dictionary : Option Dictionary
  wlocal : ℚ → ℚ
  wglobal : Nat → Nat → ℚ
  normalize : Bool
  smartirs : List Char
  slope : ℚ
  pivot : Option ℚ

/-- Translated from TfIdfTransformer.fit: build a fresh TfidfModel from the
training corpus X and the stored configuration and store it in
gensim_model; the supervision argument y is ignored.  A raised exception is
an error value; on success the returned state is the mutated self. -/
def fit {α : Type} (rlog : ℚ → ℚ) (st : TfIdfTransformer) (X : List Doc) (y : α) :
    Except TfidfError TfIdfTransformer :=
  match TfidfModel.init rlog X st.dictionary st.smartirs st.pivot st.slope with
  | .error e => .error e
  | .ok m => .ok { st with gensim_model := some m }

/-- Dynamic bag-of-words input of transform: each element of the Python list
is either a single (term-id, value) tuple (the single-document call shape)
or a list of such pairs (one document of a corpus). -/
inductive Elem
| pair (p : Nat × ℚ)
| vec (d : Doc)
deriving DecidableEq, Repr

/-- Read a Python list whose first element was a tuple as one document: every
element must be a (term-id, value) pair; any other dynamic shape is a
TypeError downstream. -/
def decodeDoc : List Elem → Except TfidfError Doc
| [] => .ok []
| Elem.pair p :: rest =>
  match decodeDoc rest with
  | .ok d => .ok (p :: d)
  | .error e => .error e
| Elem.vec _ :: _ => .error .typeError

/-- Read a Python list whose first element was a list as a corpus: every
element must itself be a document; any other dynamic shape is a TypeError
downstream. -/
def decodeCorpus : List Elem → Except TfidfError (List Doc)
| [] => .ok []
| Elem.vec d :: rest =>
  match decodeCorpus rest with
  | .ok c => .ok (d :: c)
  | .error e => .error e
| Elem.pair _ :: _ => .error .typeError

/-- Translated from TfIdfTransformer.transform: raise NotFittedError when
gensim_model is None; otherwise inspect docs[0] (an IndexError on an empty
input), wrap the input into a one-document corpus when the first element is
a tuple, and return the list of weighted documents together with the
(unchanged) state. -/
def transform (rlog rsqrt : ℚ → ℚ) (st : TfIdfTransformer) (docs : List Elem) :
    Except TfidfError (TfIdfTransformer × List Doc) :=
  match st.gensim_model with
  | none => .error .notFitted
  | some m =>
    match docs with
    | [] => .error .indexError
    | Elem.pair _ :: _ =>
      match decodeDoc docs with
      | .error e => .error e
      | .ok d => .ok (st, [TfidfModel.apply rlog rsqrt m d])
    | Elem.vec _ :: _ =>
      match decodeCorpus docs with
      | .error e => .error e
      | .ok c => .ok (st, c.map (TfidfModel.apply rlog rsqrt m))

/-- Follows the spec's words, for comparison with the implementation: the
output of transform has the same shape as the input, a single document in
producing the single weighted document out (a list of pairs), a corpus in
producing the corpus of weighted documents. -/
def specShapeTransform (rlog rsqrt : ℚ → ℚ) (st : TfIdfTransformer) (docs : List Elem) :
    Except TfidfError (List Elem) :=
  match st.gensim_model with
  | none => .error .notFitted
  | some m =>
    match docs with
    | [] => .error .indexError
    | Elem.pair _ :: _ =>
      match decodeDoc docs with
      | .error e => .error e
      | .ok d => .ok ((TfidfModel.apply rlog rsqrt m d).map Elem.pair)
    | Elem.vec _ :: _ =>
      match decodeCorpus docs with
      | .error e => .error e
      | .ok c => .ok ((c.map (TfidfModel.apply rlog rsqrt m)).map Elem.vec)

/-- Concrete unfitted transformer (the source's default configuration, with
an explicit pivot). -/
def T0 : TfIdfTransformer :=
  { gensim_model := none, id2word := none, dictionary := none,
    wlocal := fun q => q, wglobal := fun _ _ => 1, normalize := true,
    smartirs := ['n', 'n', 'n'], slope := 13/20, pivot := some 1 }

/-- The model fit builds from T0 and the corpus with the single document
[(0, 1)]. -/
def M0 : TfidfModel :=
  ⟨⟨SmartLocal.raw, SmartGlobal.non, SmartNorm.non, SmartLocal.raw⟩, 1, [(0, 1)], some 1, 13/20⟩

/-- The transformer T0 after a successful fit on the corpus [[(0, 1)]]. -/
def E0 : TfIdfTransformer := { T0 with gensim_model := some M0 }

/-- The transformer T0 reconfigured with the invalid mnemonic from the spec's test scenario. -/
def T9 : TfIdfTransformer := { T0 with smartirs := ['x', 'y', 'z', '9'] }

/-- A fitted model under the default nfc scheme over a two-document corpus. -/
def M2 : TfidfModel :=
  ⟨⟨SmartLocal.raw, SmartGlobal.idf, SmartNorm.cosine, SmartLocal.raw⟩, 2,
    [(0, 1), (1, 2), (2, 1)], none, 13/20⟩

/-- A fitted transformer holding M2. -/
def E2 : TfIdfTransformer :=
  { T0 with smartirs := ['n', 'f', 'c'], pivot := none, gensim_model := some M2 }

lemma decodeDoc_map_pair (d : Doc) : decodeDoc (d.map Elem.pair) = .ok d := by
  induction d with
  | nil => rfl
  | cons p rest ih => simp [decodeDoc, ih]

lemma decodeCorpus_map_vec (c : List Doc) : decodeCorpus (c.map Elem.vec) = .ok c := by
  induction c with
  | nil => rfl
  | cons d rest ih => simp [decodeCorpus, ih]

lemma TfidfModel.apply_nil (rlog rsqrt : ℚ → ℚ) (m : TfidfModel) :
    TfidfModel.apply rlog rsqrt m [] = [] := by
  cases hnr : m.scheme.nr <;>
    simp [TfidfModel.apply, weightDoc, cnorm, pivotedScale, hnr] <;>
    cases m.pivot <;> simp [pivotedScale]

lemma localOf_ok_mem {c : Char} {l : SmartLocal} (h : localOf c = .ok l) : c ∈ localChars := by
  unfold localOf at h
  split_ifs at h with h1 h2 h3 h4 h5 h6
  all_goals first
    | (rcases h2 with rfl | rfl <;> simp [localChars])
    | simp_all [localChars]

lemma globalOf_ok_mem {c : Char} {g : SmartGlobal} (h : globalOf c = .ok g) : c ∈ globalChars := by
  unfold globalOf at h
  split_ifs at h with h1 h2 h3 h4
  all_goals first
    | (rcases h1 with rfl | rfl <;> simp [globalChars])
    | simp_all [globalChars]

lemma normOf_ok_mem {c : Char} {n : SmartNorm} (h : normOf c = .ok n) : c ∈ normChars := by
  unfold normOf at h
  split_ifs at h with h1 h2 h3 h4
  all_goals first
    | (rcases h1 with rfl | rfl <;> simp [normChars])
    | simp_all [normChars]

lemma resolve_ok_valid {s : List Char} {sch : Scheme} (h : resolve s = .ok sch) :
    validMnemonic s := by
  rcases s with _ | ⟨c1, _ | ⟨c2, _ | ⟨c3, _ | ⟨c4, _ | ⟨c5, t⟩⟩⟩⟩⟩
  · simp [resolve] at h
  · simp [resolve] at h
  · simp [resolve] at h
  · cases h1 : localOf c1 with
    | error e => simp [resolve, h1] at h
    | ok lo =>
      cases h2 : globalOf c2 with
      | error e => simp [resolve, h1, h2] at h
      | ok gl =>
        cases h3 : normOf c3 with
        | error e => simp [resolve, h1, h2, h3] at h
        | ok nr =>
          refine ⟨Or.inl rfl, ?_⟩
          intro i
          fin_cases i
          · simpa using localOf_ok_mem h1
          · simpa using globalOf_ok_mem h2
          · simpa using normOf_ok_mem h3
  · cases h1 : localOf c1 with
    | error e => simp [resolve, h1] at h
    | ok lo =>
      cases h2 : globalOf c2 with
      | error e => simp [resolve, h1, h2] at h
      | ok gl =>
        cases h3 : normOf c3 with
        | error e => simp [resolve, h1, h2, h3] at h
        | ok nr =>
          cases h4 : localOf c4 with
          | error e => simp [resolve, h1, h2, h3, h4] at h
          | ok lenLo =>
            refine ⟨Or.inr rfl, ?_⟩
            intro i
            fin_cases i
            · simpa using localOf_ok_mem h1
            · simpa using globalOf_ok_mem h2
            · simpa using normOf_ok_mem h3
            · simpa using localOf_ok_mem h4
  · simp [resolve] at h

lemma resolve_ok_or_error (s : List Char) :
    (∃ sch, resolve s = .ok sch) ∨ resolve s = .error .invalidScheme := by
  rcases s with _ | ⟨c1, _ | ⟨c2, _ | ⟨c3, _ | ⟨c4, _ | ⟨c5, t⟩⟩⟩⟩⟩
  · exact Or.inr rfl
  · exact Or.inr rfl
  · exact Or.inr rfl
  · cases h1 : localOf c1 with
    | error e => exact Or.inr (by simp [resolve, h1])
    | ok lo =>
      cases h2 : globalOf c2 with
      | error e => exact Or.inr (by simp [resolve, h1, h2])
      | ok gl =>
        cases h3 : normOf c3 with
        | error e => exact Or.inr (by simp [resolve, h1, h2, h3])
        | ok nr => exact Or.inl ⟨⟨lo, gl, nr, SmartLocal.raw⟩, by simp [resolve, h1, h2, h3]⟩
  · cases h1 : localOf c1 with
    | error e => exact Or.inr (by simp [resolve, h1])
    | ok lo =>
      cases h2 : globalOf c2 with
      | error e => exact Or.inr (by simp [resolve, h1, h2])
      | ok gl =>
        cases h3 : normOf c3 with
        | error e => exact Or.inr (by simp [resolve, h1, h2, h3])
        | ok nr =>
          cases h4 : localOf c4 with
          | error e => exact Or.inr (by simp [resolve, h1, h2, h3, h4])
          | ok lenLo => exact Or.inl ⟨⟨lo, gl, nr, lenLo⟩, by simp [resolve, h1, h2, h3, h4]⟩
  · exact Or.inr rfl

lemma resolve_invalid {s : List Char} (h : ¬ validMnemonic s) :
    resolve s = .error .invalidScheme := by
  rcases resolve_ok_or_error s with ⟨sch, hok⟩ | herr
  · exact absurd (resolve_ok_valid hok) h
  · exact herr

/-- Claim C1: transform on an unfitted engine fails with NotFittedError. -/
theorem transform_unfitted (rlog rsqrt : ℚ → ℚ) (st : TfIdfTransformer)
    (h : st.gensim_model = none) (docs : List Elem) :
    transform rlog rsqrt st docs = .error .notFitted := by
  simp [transform, h]

theorem transform_unfitted_witness :
    transform (fun q => q) (fun q => q) T0 [] = .error .notFitted :=
  transform_unfitted (fun q => q) (fun q => q) T0 rfl []

/-- Claim C8: transform on a fitted engine with an empty input raises an
indexing error from inspecting the first element. -/
theorem transform_empty_input_raises (rlog rsqrt : ℚ → ℚ) (st : TfIdfTransformer)
    (m : TfidfModel) (h : st.gensim_model = some m) :
    transform rlog rsqrt st ([] : List Elem) = .error .indexError := by
  simp [transform, h]

theorem transform_empty_input_raises_witness :
    transform (fun q => q) (fun q => q) E2 ([] : List Elem) = .error .indexError :=
  transform_empty_input_raises (fun q => q) (fun q => q) E2 M2 rfl

/-- Claim C2 (counterexample): on the single-document input [(0, 0)] the
implementation returns a one-document corpus (a list wrapping the weighted
document), not a value of the same shape as the input as the spec-shaped
reading requires. -/
theorem transform_shape_counterexample :
    Except.map (fun r => r.2.map Elem.vec)
        (transform (fun q => q) (fun q => q) E0 [Elem.pair (0, 1)])
      ≠ specShapeTransform (fun q => q) (fun q => q) E0 [Elem.pair (0, 1)] := by
  simp [transform, specShapeTransform, decodeDoc, TfidfModel.apply, weightDoc,
    localWt, globalWt, E0, M0, T0, Except.map]

/-- Claim C2 (amended): the output of transform on a fitted engine is always
a corpus: a corpus input of n documents yields n weighted documents, and a
single-document input yields a one-document corpus containing the weighted
document. -/
theorem transform_output_corpus_shape (rlog rsqrt : ℚ → ℚ) (st : TfIdfTransformer)
    (m : TfidfModel) (h : st.gensim_model = some m) (d : Doc) (hd : d ≠ [])
    (c : List Doc) (hc : c ≠ []) :
    transform rlog rsqrt st (d.map Elem.pair) = .ok (st, [TfidfModel.apply rlog rsqrt m d])
    ∧ transform rlog rsqrt st (c.map Elem.vec) = .ok (st, c.map (TfidfModel.apply rlog rsqrt m))
    ∧ (c.map (TfidfModel.apply rlog rsqrt m)).length = c.length := by
  obtain ⟨p, d', rfl⟩ := List.exists_cons_of_ne_nil hd
  obtain ⟨d0, c', rfl⟩ := List.exists_cons_of_ne_nil hc
  have hdec1 : decodeDoc (Elem.pair p :: List.map Elem.pair d') = .ok (p :: d') := by
    simpa using decodeDoc_map_pair (p :: d')
  have hdec2 : decodeCorpus (Elem.vec d0 :: List.map Elem.vec c') = .ok (d0 :: c') := by
    simpa using decodeCorpus_map_vec (d0 :: c')
  refine ⟨?_, ?_, by simp⟩
  · simp [transform, h, hdec1]
  · simp [transform, h, hdec2]

theorem transform_output_corpus_shape_witness :
    transform (fun q => q) (fun q => q) E0 ([((0 : Nat), (1 : ℚ))].map Elem.pair)
        = .ok (E0, [TfidfModel.apply (fun q => q) (fun q => q) M0 [(0, 1)]])
    ∧ transform (fun q => q) (fun q => q) E0 (([[]] : List Doc).map Elem.vec)
        = .ok (E0, ([[]] : List Doc).map (TfidfModel.apply (fun q => q) (fun q => q) M0))
    ∧ (([[]] : List Doc).map (TfidfModel.apply (fun q => q) (fun q => q) M0)).length
        = ([[]] : List Doc).length :=
  transform_output_corpus_shape (fun q => q) (fun q => q) E0 M0 rfl
    [(0, 1)] (by simp) [[]] (by simp)

/-- Claim C3: on a fitted engine, a nonempty input whose first element is a
single (term-id, value) tuple is treated as one document and wrapped into a
one-document corpus before weighting, while an input whose first element is
itself a document is treated as a corpus, each element weighted as a
document. -/
theorem transform_first_element_rule (rlog rsqrt : ℚ → ℚ) (st : TfIdfTransformer)
    (m : TfidfModel) (h : st.gensim_model = some m) (p : Nat × ℚ) (d0 : Doc)
    (es : List Elem) (d : Doc) (c : List Doc) :
    (decodeDoc (Elem.pair p :: es) = .ok d →
      transform rlog rsqrt st (Elem.pair p :: es) = .ok (st, [TfidfModel.apply rlog rsqrt m d]))
    ∧ (decodeCorpus (Elem.vec d0 :: es) = .ok c →
      transform rlog rsqrt st (Elem.vec d0 :: es) = .ok (st, c.map (TfidfModel.apply rlog rsqrt m))) := by
  constructor
  · intro hdec
    simp [transform, h, hdec]
  · intro hdec
    simp [transform, h, hdec]

theorem transform_first_element_rule_witness :
    transform (fun q => q) (fun q => q) E0 [Elem.pair (0, 1)]
        = .ok (E0, [TfidfModel.apply (fun q => q) (fun q => q) M0 [(0, 1)]])
    ∧ transform (fun q => q) (fun q => q) E0 [Elem.vec []]
        = .ok (E0, ([[]] : List Doc).map (TfidfModel.apply (fun q => q) (fun q => q) M0)) :=
  ⟨(transform_first_element_rule (fun q => q) (fun q => q) E0 M0 rfl (0, 1) [] [] [(0, 1)] [[]]).1 rfl,
    (transform_first_element_rule (fun q => q) (fun q => q) E0 M0 rfl (0, 1) [] [] [(0, 1)] [[]]).2 rfl⟩

/-- Claim C4: a successful fit puts the engine in the fitted state, holding
exactly the model built from the new corpus and the stored configuration,
and the result of fit does not depend on any previously held model. -/
theorem fit_replaces_state {α : Type} (rlog : ℚ → ℚ) (st : TfIdfTransformer)
    (X : List Doc) (y : α) (prior : Option TfidfModel) :
    fit rlog { st with gensim_model := prior } X y
        = fit rlog { st with gensim_model := none } X y
    ∧ ∀ r, fit rlog st X y = .ok r →
        ∃ m, TfidfModel.init rlog X st.dictionary st.smartirs st.pivot st.slope = .ok m
          ∧ r.gensim_model = some m := by
  constructor
  · cases hinit : TfidfModel.init rlog X st.dictionary st.smartirs st.pivot st.slope <;>
      simp [fit, hinit]
  · intro r hr
    cases hinit : TfidfModel.init rlog X st.dictionary st.smartirs st.pivot st.slope with
    | error e => simp [fit, hinit] at hr
    | ok m =>
      simp [fit, hinit] at hr
      exact ⟨m, rfl, by rw [← hr]⟩

theorem fit_replaces_state_witness :
    (fit (fun q => q) { T0 with gensim_model := some M2 } [[(0, 1)]] ()
        = fit (fun q => q) { T0 with gensim_model := none } [[(0, 1)]] ())
    ∧ ∃ m, TfidfModel.init (fun q => q) [[(0, 1)]] T0.dictionary T0.smartirs T0.pivot T0.slope
          = .ok m ∧ E0.gensim_model = some m :=
  ⟨(fit_replaces_state (fun q => q) T0 [[(0, 1)]] () (some M2)).1,
    (fit_replaces_state (fun q => q) T0 [[(0, 1)]] () (some M2)).2 E0 rfl⟩

/-- Claim C5: transform is deterministic and does not mutate the engine
state: a successful call leaves the state unchanged, and repeating the call
on the resulting state yields the identical output. -/
theorem transform_deterministic (rlog rsqrt : ℚ → ℚ) (st : TfIdfTransformer)
    (docs : List Elem) (st' : TfIdfTransformer) (out : List Doc)
    (h : transform rlog rsqrt st docs = .ok (st', out)) :
    st' = st ∧ transform rlog rsqrt st' docs = .ok (st', out) := by
  have hst : st' = st := by
    unfold transform at h
    repeat' split at h
    all_goals simp_all
  subst hst
  exact ⟨rfl, h⟩

theorem transform_deterministic_witness :
    E0 = E0 ∧ transform (fun q => q) (fun q => q) E0 [Elem.vec []] = .ok (E0, [[]]) :=
  transform_deterministic (fun q => q) (fun q => q) E0 [Elem.vec []] E0 [[]] rfl

/-- Claim C6: fit with a smartirs mnemonic that is not 3 or 4 characters
long, or has at any position a character that is not a recognized code for
that position, fails with the invalid-scheme error. -/
theorem fit_invalid_smartirs {α : Type} (rlog : ℚ → ℚ) (st : TfIdfTransformer)
    (X : List Doc) (y : α) (h : ¬ validMnemonic st.smartirs) :
    fit rlog st X y = .error .invalidScheme := by
  simp [fit, TfidfModel.init, resolve_invalid h]

theorem fit_invalid_smartirs_witness :
    fit (fun q => q) T9 [] () = .error .invalidScheme :=
  fit_invalid_smartirs (fun q => q) T9 [] () (by decide)

/-- Claim C7 (counterexample): transforming an already-empty document passed
directly to transform does not succeed with an empty vector: the
shape-detection step indexes the (empty) input and raises an indexing
error. -/
theorem transform_empty_doc_counterexample :
    transform (fun q => q) (fun q => q) E0 (([] : Doc).map Elem.pair)
      = .error .indexError := rfl

/-- Claim C7 (amended): on a fitted engine an empty document passed as an
element of a corpus is transformed successfully into an empty vector, while
the bare empty document raises an indexing error in shape detection. -/
theorem transform_empty_doc_in_corpus (rlog rsqrt : ℚ → ℚ) (st : TfIdfTransformer)
    (m : TfidfModel) (h : st.gensim_model = some m) :
    transform rlog rsqrt st [Elem.vec []] = .ok (st, [[]])
    ∧ transform rlog rsqrt st (([] : Doc).map Elem.pair) = .error .indexError := by
  constructor
  · simp [transform, h, decodeCorpus, TfidfModel.apply_nil]
  · simp [transform, h]

theorem transform_empty_doc_in_corpus_witness :
    transform (fun q => q) (fun q => q) E2 [Elem.vec []] = .ok (E2, [[]])
    ∧ transform (fun q => q) (fun q => q) E2 (([] : Doc).map Elem.pair)
        = .error .indexError :=
  transform_empty_doc_in_corpus (fun q => q) (fun q => q) E2 M2 rfl

/-- Claim C9: the supervision argument y of fit is ignored entirely: any two
values of y produce identical fitted state and identical subsequent
transform output. -/
theorem fit_ignores_y {α : Type} (rlog : ℚ → ℚ) (st : TfIdfTransformer)
    (X : List Doc) (y1 y2 : α) :
    fit rlog st X y1 = fit rlog st X y2
    ∧ ∀ (rsqrt : ℚ → ℚ) (docs : List Elem),
        Except.map (fun r => transform rlog rsqrt r docs) (fit rlog st X y1)
          = Except.map (fun r => transform rlog rsqrt r docs) (fit rlog st X y2) :=
  ⟨rfl, fun _ _ => rfl⟩

/-- Claim C10: fit only replaces the held model: every configuration field
set at construction is unchanged in the state a successful fit returns. -/
theorem fit_frame {α : Type} (rlog : ℚ → ℚ) (st : TfIdfTransformer)
    (X : List Doc) (y : α) (r : TfIdfTransformer) (h : fit rlog st X y = .ok r) :
    r.id2word = st.id2word ∧ r.dictionary = st.dictionary ∧ r.wlocal = st.wlocal
    ∧ r.wglobal = st.wglobal ∧ r.normalize = st.normalize ∧ r.smartirs = st.smartirs
    ∧ r.slope = st.slope ∧ r.pivot = st.pivot := by
  unfold fit at h
  cases hinit : TfidfModel.init rlog X st.dictionary st.smartirs st.pivot st.slope with
  | error e => rw [hinit] at h; simp at h
  | ok m =>
    rw [hinit] at h
    simp at h
    subst h
    exact ⟨rfl, rfl, rfl, rfl, rfl, rfl, rfl, rfl⟩

theorem fit_frame_witness :
    E0.id2word = T0.id2word ∧ E0.dictionary = T0.dictionary ∧ E0.wlocal = T0.wlocal
    ∧ E0.wglobal = T0.wglobal ∧ E0.normalize = T0.normalize ∧ E0.smartirs = T0.smartirs
    ∧ E0.slope = T0.slope ∧ E0.pivot = T0.pivot :=
  fit_frame (fun q => q) T0 [[(0, 1)]] () E0 rfl

end Gensim
